import Mathlib

/-!
Verification of the procedural grid / scroll / wave engine in
`src/app/components/CircleWallpaper.tsx`.

The TypeScript module is shallowly embedded below.  Floating-point numbers
are modelled as real numbers; the 32-bit integer hash is modelled exactly
over `ℕ`/`ℤ` with explicit `% 2^32` reductions.  The fixed rotation
constants `GRID_COS`/`GRID_SIN` are modelled as the exact real cosine and
sine of the 20° rotation angle.
-/

namespace CircleWallpaper

/-! ## Module-level constants (lines 7-23 of the source) -/
noncomputable def GRID_ROTATION_RAD : ℝ := 20 * (Real.pi / 180)

noncomputable def GRID_COS : ℝ := Real.cos GRID_ROTATION_RAD

noncomputable def GRID_SIN : ℝ := Real.sin GRID_ROTATION_RAD

noncomputable def BASE_X_SPACING_MULTIPLIER : ℝ := 1 / 0.82

noncomputable def BASE_Y_SPACING_MULTIPLIER : ℝ := 1.29

noncomputable def Y_SPACING_REDUCTION : ℝ := 0.9

noncomputable def Y_SPACING_MULTIPLIER : ℝ := BASE_Y_SPACING_MULTIPLIER * Y_SPACING_REDUCTION

noncomputable def X_SPACING_MULTIPLIER : ℝ :=
  (BASE_X_SPACING_MULTIPLIER * Y_SPACING_REDUCTION + Y_SPACING_MULTIPLIER) / 2 * 1.08

noncomputable def MIN_OPACITY : ℝ := 0.08

noncomputable def HALF_OPACITY : ℝ := 0.5

noncomputable def FALLOFF_POWER : ℝ := 3.2

noncomputable def HORIZONTAL_SCROLL_SPEED : ℝ := 2.0

noncomputable def CAMERA_FOV : ℝ := 40

noncomputable def CAMERA_DISTANCE : ℝ := 45

noncomputable def GRID_PLANE_Z : ℝ := 0

/-! ## Deterministic field generator (`randomForCell`, lines 154-161)

JavaScript coerces each multiplication result to a 32-bit integer before
the xors (`ToInt32`), and every xor/shift step ends with `>>> 0`, so the
whole computation happens on 32-bit patterns.  We model each pattern by
its unsigned representative below `2^32`. -/
def toUint32 (i : ℤ) : ℕ := (i % 4294967296).toNat

/-- Mixing step `seed = (seed ^ (seed << 13)) >>> 0` of `randomForCell`. -/
def xorshift13 (s : ℕ) : ℕ := s ^^^ ((s <<< 13) % 4294967296)

/-- Mixing step `seed = (seed ^ (seed >>> 17)) >>> 0` of `randomForCell`. -/
def xorshift17 (s : ℕ) : ℕ := s ^^^ (s >>> 17)

/-- Mixing step `seed = (seed ^ (seed << 5)) >>> 0` of `randomForCell`. -/
def xorshift5 (s : ℕ) : ℕ := s ^^^ ((s <<< 5) % 4294967296)

/-- Seed-mixing pipeline of `randomForCell`: the initial xor of the three
multiplied coordinates with the session seed, then the three xorshift
steps, each on 32-bit patterns. -/
def cellHash (baseSeed : ℕ) (row col variant : ℤ) : ℕ :=
  xorshift5 (xorshift17 (xorshift13
    (toUint32 (row * 73856093) ^^^ toUint32 (col * 19349663) ^^^
      toUint32 (variant * 83492791) ^^^ baseSeed)))

/-- The value returned by `randomForCell`: the final 32-bit seed divided
by `2^32`, as an exact rational. -/
def randomForCell (baseSeed : ℕ) (row col variant : ℤ) : ℚ :=
  (cellHash baseSeed row col variant : ℚ) / 4294967296

/-! ## Opacity policy (lines 317-328 of `layoutCircles`) -/
/-- Per-cell base opacity exactly as assigned in the layout loop, as a
function of the three per-cell samples. `Math.pow` on a non-negative
sample is modelled by the real power `rpow`. -/
noncomputable def opacityFromSamples (s0 s1 s2 : ℝ) : ℝ :=
  if s0 < 0.015 then 1
  else if s0 < 0.055 then HALF_OPACITY
  else
    let base := s1 ^ FALLOFF_POWER
    let jitter := 0.82 + s2 * 0.35
    let value := MIN_OPACITY + (HALF_OPACITY - MIN_OPACITY) * base * jitter
    min (HALF_OPACITY - 0.05) (max MIN_OPACITY value)

/-- Opacity policy as worded by the specification: the dim-tier value is
`minOpacity + (0.5 − minOpacity) × sample1^falloffPower × (0.82 + sample2×0.35)`
clamped to `[minOpacity, 0.45]`, with `minOpacity = 0.08` and
`falloffPower = 3.2`. -/
noncomputable def specOpacityPolicy (s0 s1 s2 : ℝ) : ℝ :=
  if s0 < 0.015 then 1
  else if s0 < 0.055 then 0.5
  else
    max 0.08 (min 0.45 (0.08 + (0.5 - 0.08) * (s1 ^ (3.2 : ℝ)) * (0.82 + s2 * 0.35)))

/-! ## Layout spacing quantities (lines 213-217 of `layoutCircles`) -/
/-- Circle diameter: `Math.max(0.2, Math.min(viewWidth * 0.07, viewHeight * 0.12))`. -/
noncomputable def diameterOf (viewWidth viewHeight : ℝ) : ℝ :=
  max 0.2 (min (viewWidth * 0.07) (viewHeight * 0.12))

noncomputable def xSpacingOf (viewWidth viewHeight : ℝ) : ℝ :=
  diameterOf viewWidth viewHeight * X_SPACING_MULTIPLIER

noncomputable def ySpacingOf (viewWidth viewHeight : ℝ) : ℝ :=
  diameterOf viewWidth viewHeight * Y_SPACING_MULTIPLIER

noncomputable def radiusOf (viewWidth viewHeight : ℝ) : ℝ :=
  diameterOf viewWidth viewHeight * 0.5

noncomputable def safetyPaddingOf (viewWidth viewHeight : ℝ) : ℝ :=
  max (diameterOf viewWidth viewHeight * 0.12) 0.2

noncomputable def marginOf (viewWidth viewHeight : ℝ) : ℝ :=
  radiusOf viewWidth viewHeight + safetyPaddingOf viewWidth viewHeight

/-! ## Scroll controller (lines 555-570 of `animate`) -/
/-- JavaScript `Math.trunc`: rounding toward zero. -/
noncomputable def truncR (x : ℝ) : ℤ := if 0 ≤ x then ⌊x⌋ else ⌈x⌉

/-- Spacing used by the frame advance:
`currentXSpacing > 0 ? currentXSpacing : 1`. -/
noncomputable def spacingFallback (currentXSpacing : ℝ) : ℝ :=
  if 0 < currentXSpacing then currentXSpacing else 1

/-- Scroll-advance step of `animate` (after the early returns): integrates
the constant horizontal velocity, then shifts the integer column origin by
`Math.trunc(offsetDelta / spacing)` whenever `|offsetDelta| ≥ spacing`.
Returns the new `scrollOffset`, the new `worldColumnOffset` and the
`layoutNeedsUpdate` flag that triggers the rebuild. -/
noncomputable def frameScroll (scrollOffset : ℝ) (worldColumnOffset : ℤ)
    (currentXSpacing layoutBaseOffset deltaSeconds : ℝ) : ℝ × ℤ × Bool :=
  let so := scrollOffset + deltaSeconds * HORIZONTAL_SCROLL_SPEED
  let spacing := spacingFallback currentXSpacing
  let offsetDelta := so - worldColumnOffset * spacing - layoutBaseOffset
  if spacing ≤ |offsetDelta| then
    let steps := truncR (offsetDelta / spacing)
    if steps ≠ 0 then (so, worldColumnOffset + steps, true)
    else (so, worldColumnOffset, false)
  else (so, worldColumnOffset, false)

/-! ## Size update (`updateSize`, lines 476-505) -/
/-- View-projection helper `THREE.MathUtils.degToRad`. -/
noncomputable def degToRad (degrees : ℝ) : ℝ := degrees * (Real.pi / 180)

/-- Mutable engine state captured by the effect closure: the scroll
counters, the cached spacing from the last rebuild, the scroll-group
translation and the frame timestamp. -/
structure EngineState where
  scrollOffset : ℝ
  worldColumnOffset : ℤ
  layoutBaseOffset : ℝ
  lastTimestamp : Option ℝ
  scrollGroupPos : ℝ × ℝ × ℝ
  currentViewWidth : ℝ
  currentViewHeight : ℝ
  currentXSpacing : ℝ

/-- The `updateSize` handler: an early return on a zero-sized container,
otherwise the view rectangle is recomputed from the camera frustum, the
scroll state is reset (`scrollOffset = 0`, `layoutBaseOffset = 0`,
`worldColumnOffset = 0`, scroll-group translation `(0,0,0)`,
`lastTimestamp = null`), and `layoutCircles` runs, caching the new
x-spacing. -/
noncomputable def updateSize (st : EngineState) (clientWidth clientHeight : ℝ) : EngineState :=
  if clientWidth = 0 ∨ clientHeight = 0 then st
  else
    let distanceToPlane := CAMERA_DISTANCE - GRID_PLANE_Z
    let verticalFov := degToRad CAMERA_FOV
    let viewHeight := 2 * Real.tan (verticalFov / 2) * distanceToPlane
    let viewWidth := viewHeight * (clientWidth / clientHeight)
    { scrollOffset := 0
      worldColumnOffset := 0
      layoutBaseOffset := 0
      lastTimestamp := none
      scrollGroupPos := (0, 0, 0)
      currentViewWidth := viewWidth
      currentViewHeight := viewHeight
      currentXSpacing := xSpacingOf viewWidth viewHeight }

/-! ## Wave animator (`applyWaveAnimation`, lines 373-474, and the fixed
wave parameters of `waveParamsRef`, lines 81-90) -/
noncomputable def WAVE_SPEED : ℝ := 1.2

noncomputable def SECONDARY_FREQUENCY : ℝ := 1.5

noncomputable def RIPPLE_FREQUENCY_X : ℝ := 2.5

noncomputable def RIPPLE_FREQUENCY_Z : ℝ := 1.8

noncomputable def RIPPLE_SPEED : ℝ := 3.0

noncomputable def PULSE_SPEED : ℝ := 1.5

noncomputable def PULSE_SPATIAL_X : ℝ := 0.8

noncomputable def PULSE_SPATIAL_Z : ℝ := 0.6

/-- Static per-cell data written by `layoutCircles` into
`baseInstancesRef`. -/
structure BaseInstanceData where
  baseX : ℝ
  baseY : ℝ
  row : ℤ
  col : ℤ
  shift : ℝ
  worldColumn : ℤ
  baseOpacity : ℝ

/-- The slice of `layoutStateRef` consumed by the wave animator. -/
structure LayoutConsts where
  xSpacing : ℝ
  amplitude : ℝ
  secondaryAmplitude : ℝ
  rippleAmplitude : ℝ
  waveLength : ℝ
  baseZ : ℝ

/-- Wave-space x coordinate of an instance:
`(worldColumn + shift) * xSpacing - scrollOffset`. -/
noncomputable def worldXOf (L : LayoutConsts) (inst : BaseInstanceData) (scrollOffset : ℝ) : ℝ :=
  ((inst.worldColumn : ℝ) + inst.shift) * L.xSpacing - scrollOffset

/-- Wave-space z coordinate of an instance: its base y position. -/
noncomputable def worldZOf (inst : BaseInstanceData) : ℝ := inst.baseY

noncomputable def primaryWave (L : LayoutConsts) (inst : BaseInstanceData)
    (scrollOffset t : ℝ) : ℝ :=
  Real.sin (worldXOf L inst scrollOffset / L.waveLength + t * WAVE_SPEED) * L.amplitude

noncomputable def secondaryWave (L : LayoutConsts) (inst : BaseInstanceData)
    (scrollOffset t : ℝ) : ℝ :=
  Real.sin (worldZOf inst / (L.waveLength * 0.7) +
    worldXOf L inst scrollOffset / (L.waveLength * 1.3) +
    t * WAVE_SPEED * SECONDARY_FREQUENCY) * L.secondaryAmplitude

noncomputable def ripples (L : LayoutConsts) (inst : BaseInstanceData)
    (scrollOffset t : ℝ) : ℝ :=
  Real.sin (worldXOf L inst scrollOffset * RIPPLE_FREQUENCY_X +
    worldZOf inst * RIPPLE_FREQUENCY_Z + t * RIPPLE_SPEED) * L.rippleAmplitude

noncomputable def totalWaveHeight (L : LayoutConsts) (inst : BaseInstanceData)
    (scrollOffset t : ℝ) : ℝ :=
  primaryWave L inst scrollOffset t + secondaryWave L inst scrollOffset t +
    ripples L inst scrollOffset t

/-- Depth written into the instance matrix: `baseZ + totalWaveHeight`. -/
noncomputable def depthAt (L : LayoutConsts) (inst : BaseInstanceData)
    (scrollOffset t : ℝ) : ℝ :=
  L.baseZ + totalWaveHeight L inst scrollOffset t

/-- Denominator guard `Math.max(1e-6, amplitude)`. -/
noncomputable def amplitudeSafe (amplitude : ℝ) : ℝ := max 1e-6 amplitude

/-- `THREE.MathUtils.clamp(value, lo, hi) = Math.max(lo, Math.min(hi, value))`. -/
noncomputable def clampR (value lo hi : ℝ) : ℝ := max lo (min hi value)

/-- `THREE.MathUtils.lerp(x, y, t) = (1 - t) * x + t * y`. -/
noncomputable def lerp (x y t : ℝ) : ℝ := (1 - t) * x + t * y

/-- JavaScript remainder `a % b` on floats: `a - b * Math.trunc(a / b)`. -/
noncomputable def jsMod (a b : ℝ) : ℝ := a - b * truncR (a / b)

noncomputable def waveIntensity (L : LayoutConsts) (inst : BaseInstanceData)
    (scrollOffset t : ℝ) : ℝ :=
  clampR ((totalWaveHeight L inst scrollOffset t + amplitudeSafe L.amplitude) /
    (amplitudeSafe L.amplitude * 2)) 0 1

noncomputable def pulsePhase (L : LayoutConsts) (inst : BaseInstanceData)
    (scrollOffset t : ℝ) : ℝ :=
  jsMod (t * PULSE_SPEED + worldXOf L inst scrollOffset * PULSE_SPATIAL_X +
    worldZOf inst * PULSE_SPATIAL_Z) (Real.pi * 2)

noncomputable def pulseIntensity (L : LayoutConsts) (inst : BaseInstanceData)
    (scrollOffset t : ℝ) : ℝ :=
  (Real.sin (pulsePhase L inst scrollOffset t) + 1) * 0.5

noncomputable def sharpPulse (L : LayoutConsts) (inst : BaseInstanceData)
    (scrollOffset t : ℝ) : ℝ :=
  pulseIntensity L inst scrollOffset t ^ (0.3 : ℝ)

noncomputable def baseMultiplier (L : LayoutConsts) (inst : BaseInstanceData)
    (scrollOffset t : ℝ) : ℝ :=
  lerp 0.9 1.1 (waveIntensity L inst scrollOffset t)

noncomputable def highlightMultiplier (L : LayoutConsts) (inst : BaseInstanceData)
    (scrollOffset t : ℝ) : ℝ :=
  lerp 1.0 1.2 (sharpPulse L inst scrollOffset t)

noncomputable def finalMultiplier (L : LayoutConsts) (inst : BaseInstanceData)
    (scrollOffset t : ℝ) : ℝ :=
  baseMultiplier L inst scrollOffset t * highlightMultiplier L inst scrollOffset t

/-- Live opacity written back for an instance:
`Math.min(1, baseOpacity * finalMultiplier)`. -/
noncomputable def liveOpacityAt (L : LayoutConsts) (inst : BaseInstanceData)
    (scrollOffset t : ℝ) : ℝ :=
  min 1 (inst.baseOpacity * finalMultiplier L inst scrollOffset t)

/-- The whole `applyWaveAnimation` pass: early return (`none`) when there
is no layout data, the instance count is zero, or `xSpacing`/`waveLength`
is zero; otherwise the per-instance depth and live opacity are produced
for every instance. -/
noncomputable def applyWaveAnimation (L : LayoutConsts) (hasData : Bool)
    (insts : List BaseInstanceData) (scrollOffset t : ℝ) : Option (List (ℝ × ℝ)) :=
  if hasData = false then none
  else if insts.length = 0 ∨ L.xSpacing = 0 ∨ L.waveLength = 0 then none
  else some (insts.map fun inst =>
    (depthAt L inst scrollOffset t, liveOpacityAt L inst scrollOffset t))

/-! ## Layout engine (`layoutCircles`, lines 208-367) -/
/-- The constant `baseOffset = 0` of `layoutCircles` (line 219). -/
noncomputable def BASE_OFFSET : ℝ := 0

/-- Local-frame x coordinate of a viewport point:
`x * GRID_COS + y * GRID_SIN - baseOffset`. -/
noncomputable def localXCorner (x y : ℝ) : ℝ := x * GRID_COS + y * GRID_SIN - BASE_OFFSET

/-- Local-frame y coordinate of a viewport point:
`-x * GRID_SIN + y * GRID_COS`. -/
noncomputable def localYCorner (x y : ℝ) : ℝ := -x * GRID_SIN + y * GRID_COS

/-- Minimum local x over the four viewport corners, expanded by the
margin `radius + safetyPadding`. -/
noncomputable def minLocalXOf (w h : ℝ) : ℝ :=
  min (min (localXCorner (-(w * 0.5)) (-(h * 0.5))) (localXCorner (-(w * 0.5)) (h * 0.5)))
    (min (localXCorner (w * 0.5) (-(h * 0.5))) (localXCorner (w * 0.5) (h * 0.5))) -
  marginOf w h

/-- Maximum local x over the four viewport corners, expanded by the margin. -/
noncomputable def maxLocalXOf (w h : ℝ) : ℝ :=
  max (max (localXCorner (-(w * 0.5)) (-(h * 0.5))) (localXCorner (-(w * 0.5)) (h * 0.5)))
    (max (localXCorner (w * 0.5) (-(h * 0.5))) (localXCorner (w * 0.5) (h * 0.5))) +
  marginOf w h

/-- Minimum local y over the four viewport corners, expanded by the margin. -/
noncomputable def minLocalYOf (w h : ℝ) : ℝ :=
  min (min (localYCorner (-(w * 0.5)) (-(h * 0.5))) (localYCorner (-(w * 0.5)) (h * 0.5)))
    (min (localYCorner (w * 0.5) (-(h * 0.5))) (localYCorner (w * 0.5) (h * 0.5))) -
  marginOf w h

/-- Maximum local y over the four viewport corners, expanded by the margin. -/
noncomputable def maxLocalYOf (w h : ℝ) : ℝ :=
  max (max (localYCorner (-(w * 0.5)) (-(h * 0.5))) (localYCorner (-(w * 0.5)) (h * 0.5)))
    (max (localYCorner (w * 0.5) (-(h * 0.5))) (localYCorner (w * 0.5) (h * 0.5))) +
  marginOf w h

/-- Row range start: `Math.floor(minLocalY / ySpacing) - 1`. -/
noncomputable def rowMinOf (w h : ℝ) : ℤ := ⌊minLocalYOf w h / ySpacingOf w h⌋ - 1

/-- Row range end: `Math.ceil(maxLocalY / ySpacing) + 1`. -/
noncomputable def rowMaxOf (w h : ℝ) : ℤ := ⌈maxLocalYOf w h / ySpacingOf w h⌉ + 1

/-- Half-cell shift of odd rows: `(row & 1) !== 0 ? 0.5 : 0`. -/
noncomputable def shiftOf (row : ℤ) : ℝ := if row % 2 ≠ 0 then 0.5 else 0

/-- Column range start for a row:
`Math.floor(minLocalX / xSpacing - shift) - 1`. -/
noncomputable def cMinOf (w h : ℝ) (row : ℤ) : ℤ :=
  ⌊minLocalXOf w h / xSpacingOf w h - shiftOf row⌋ - 1

/-- Column range end for a row:
`Math.ceil(maxLocalX / xSpacing - shift) + 1`. -/
noncomputable def cMaxOf (w h : ℝ) (row : ℤ) : ℤ :=
  ⌈maxLocalXOf w h / xSpacingOf w h - shiftOf row⌉ + 1

/-- Inclusive integer range `[a, b]` as a list, in ascending order. -/
def intRange (a b : ℤ) : List ℤ := (List.range (b + 1 - a).toNat).map (fun i : ℕ => a + (i : ℤ))

/-- Rows enumerated by the layout: `rowMin` to `rowMax`, skipping rows
whose column range is empty (`cMax < cMin` triggers `continue`). -/
noncomputable def rowsOf (w h : ℝ) : List ℤ :=
  (intRange (rowMinOf w h) (rowMaxOf w h)).filter (fun r => decide (cMinOf w h r ≤ cMaxOf w h r))

/-- The `requiredCount` accumulated by the layout:
`Σ (cMax - cMin + 1)` over the retained rows. -/
noncomputable def requiredCountOf (w h : ℝ) : ℕ :=
  ((rowsOf w h).map (fun r => (cMaxOf w h r - cMinOf w h r + 1).toNat)).sum

/-- Base opacity of a cell as a function of its row and world column: the
three hash samples fed through the opacity policy. -/
noncomputable def cellOpacity (seed : ℕ) (row worldCol : ℤ) : ℝ :=
  opacityFromSamples ((randomForCell seed row worldCol 0 : ℚ) : ℝ)
    ((randomForCell seed row worldCol 1 : ℚ) : ℝ)
    ((randomForCell seed row worldCol 2 : ℚ) : ℝ)

/-- One instance record as populated by the layout loop: position
`((col + shift)·xSpacing, row·ySpacing)`, the world column
`col + columnWorldOffset`, and the base opacity hashed from
`(row, worldColumn)`. -/
noncomputable def mkInst (seed : ℕ) (off : ℤ) (w h : ℝ) (row col : ℤ) : BaseInstanceData :=
  { baseX := ((col : ℝ) + shiftOf row) * xSpacingOf w h
    baseY := (row : ℝ) * ySpacingOf w h
    row := row
    col := col
    shift := shiftOf row
    worldColumn := col + off
    baseOpacity := cellOpacity seed row (col + off) }

/-- The full instance table produced by a rebuild
`layoutCircles(viewWidth, viewHeight, columnWorldOffset)`. -/
noncomputable def layoutInstances (seed : ℕ) (w h : ℝ) (off : ℤ) : List BaseInstanceData :=
  (rowsOf w h).flatMap (fun r =>
    (intRange (cMinOf w h r) (cMaxOf w h r)).map (mkInst seed off w h r))

/-- Snapshot written into `layoutStateRef` at the end of a rebuild
(lines 354-366). -/
noncomputable def layoutConstsOf (w h : ℝ) : LayoutConsts :=
  { xSpacing := xSpacingOf w h
    amplitude := 1
    secondaryAmplitude := 0.15
    rippleAmplitude := 0.05
    waveLength := 4.0
    baseZ := GRID_PLANE_Z }

/-- The set of (row, col) index pairs enumerated by the layout. -/
noncomputable def codePairs (w h : ℝ) : Finset (ℤ × ℤ) :=
  (Finset.Icc (rowMinOf w h) (rowMaxOf w h)).biUnion (fun r =>
    (Finset.Icc (cMinOf w h r) (cMaxOf w h r)).image (fun c => (r, c)))

/-- Geometric reading of the spec's counting property: the cell of
`(row, col)` — the disc of radius `margin = radius + safetyPadding`
around the cell center — meets the viewport rectangle expressed in the
rotated local frame. -/
def cellIntersects (w h : ℝ) (p : ℤ × ℤ) : Prop :=
  ∃ x y : ℝ, |x| ≤ w * 0.5 ∧ |y| ≤ h * 0.5 ∧
    (((p.2 : ℝ) + shiftOf p.1) * xSpacingOf w h - localXCorner x y) ^ 2 +
      ((p.1 : ℝ) * ySpacingOf w h - localYCorner x y) ^ 2 ≤ marginOf w h ^ 2

/-! ## Lemmas and claim theorems -/

lemma toUint32_lt (i : ℤ) : toUint32 i < 4294967296 := by
  have h : i % 4294967296 < 4294967296 := Int.emod_lt_of_pos i (by norm_num)
  have h0 : 0 ≤ i % 4294967296 := Int.emod_nonneg i (by norm_num)
  unfold toUint32
  omega

lemma xorshift13_lt {s : ℕ} (hsm : s < 4294967296) : xorshift13 s < 4294967296 := by
  have h32 : (4294967296 : ℕ) = 2 ^ 32 := by norm_num
  rw [h32] at hsm ⊢
  exact Nat.xor_lt_two_pow hsm (by rw [← h32]; exact Nat.mod_lt _ (by norm_num))

lemma xorshift17_lt {s : ℕ} (hsm : s < 4294967296) : xorshift17 s < 4294967296 := by
  have h32 : (4294967296 : ℕ) = 2 ^ 32 := by norm_num
  rw [h32] at hsm ⊢
  refine Nat.xor_lt_two_pow hsm ?_
  calc s >>> 17 = s / 2 ^ 17 := Nat.shiftRight_eq_div_pow s 17
  _ ≤ s := Nat.div_le_self s _
  _ < 2 ^ 32 := hsm

lemma xorshift5_lt {s : ℕ} (hsm : s < 4294967296) : xorshift5 s < 4294967296 := by
  have h32 : (4294967296 : ℕ) = 2 ^ 32 := by norm_num
  rw [h32] at hsm ⊢
  exact Nat.xor_lt_two_pow hsm (by rw [← h32]; exact Nat.mod_lt _ (by norm_num))

lemma cellHash_lt (baseSeed : ℕ) (row col variant : ℤ)
    (hs : baseSeed < 4294967296) :
    cellHash baseSeed row col variant < 4294967296 := by
  have h32 : (4294967296 : ℕ) = 2 ^ 32 := by norm_num
  have hu : ∀ i : ℤ, toUint32 i < 2 ^ 32 := fun i => by
    have := toUint32_lt i; omega
  have h0 : toUint32 (row * 73856093) ^^^ toUint32 (col * 19349663) ^^^
      toUint32 (variant * 83492791) ^^^ baseSeed < 4294967296 := by
    rw [h32]
    rw [h32] at hs
    exact Nat.xor_lt_two_pow (Nat.xor_lt_two_pow (Nat.xor_lt_two_pow (hu _) (hu _)) (hu _)) hs
  exact xorshift5_lt (xorshift17_lt (xorshift13_lt h0))

/-- C6 — the cell sampler is a pure deterministic function of
(row, col, variant, seed): for a fixed 32-bit seed, identical inputs
always return the identical value, and every returned value lies in the
half-open interval [0, 1). -/
theorem claimC6_sample_pure_range (baseSeed : ℕ) (row col variant : ℤ)
    (hs : baseSeed < 4294967296) :
    (∀ row' col' variant' : ℤ, row = row' → col = col' → variant = variant' →
      randomForCell baseSeed row col variant = randomForCell baseSeed row' col' variant') ∧
    0 ≤ randomForCell baseSeed row col variant ∧
    randomForCell baseSeed row col variant < 1 := by
  refine ⟨?_, ?_, ?_⟩
  · intro row' col' variant' h1 h2 h3
    rw [h1, h2, h3]
  · unfold randomForCell
    positivity
  · unfold randomForCell
    rw [div_lt_one (by norm_num)]
    exact_mod_cast cellHash_lt baseSeed row col variant hs

/-- Closed witness for C6 at a concrete seed and cell. -/
theorem claimC6_witness :
    0 ≤ randomForCell 1 0 0 0 ∧ randomForCell 1 0 0 0 < 1 :=
  (claimC6_sample_pure_range 1 0 0 0 (by norm_num)).2

lemma clamp_comm (a b v : ℝ) (hab : a ≤ b) : min b (max a v) = max a (min b v) := by
  simp only [min_def, max_def]
  split_ifs <;> linarith

/-- C3 — the base opacity assigned from the three per-cell samples follows
the three-tier policy of the spec (rare full opacity below 0.015, half
opacity below 0.055, otherwise the falloff formula clamped to
[0.08, 0.45]), and consequently it always lies in [minOpacity, 1]. -/
theorem claimC3_opacity_policy (s0 s1 s2 : ℝ) :
    opacityFromSamples s0 s1 s2 = specOpacityPolicy s0 s1 s2 ∧
    MIN_OPACITY ≤ opacityFromSamples s0 s1 s2 ∧
    opacityFromSamples s0 s1 s2 ≤ 1 := by
  unfold opacityFromSamples specOpacityPolicy MIN_OPACITY HALF_OPACITY FALLOFF_POWER
  split_ifs with h1 h2
  · norm_num
  · norm_num
  · set v : ℝ := 0.08 + (0.5 - 0.08) * (s1 ^ (3.2 : ℝ)) * (0.82 + s2 * 0.35) with hv
    refine ⟨?_, ?_, ?_⟩
    · show min (0.5 - 0.05) (max 0.08 v) = max 0.08 (min 0.45 v)
      have h45 : (0.5 : ℝ) - 0.05 = 0.45 := by norm_num
      rw [h45]
      exact clamp_comm 0.08 0.45 v (by norm_num)
    · exact le_min (by norm_num) (le_max_left _ _)
    · exact le_trans (min_le_left _ _) (by norm_num)

lemma diameterOf_pos (w h : ℝ) : 0 < diameterOf w h :=
  lt_of_lt_of_le (by norm_num) (le_max_left _ _)

lemma X_SPACING_MULTIPLIER_pos : (0 : ℝ) < X_SPACING_MULTIPLIER := by
  simp only [X_SPACING_MULTIPLIER, BASE_X_SPACING_MULTIPLIER, Y_SPACING_MULTIPLIER,
    BASE_Y_SPACING_MULTIPLIER, Y_SPACING_REDUCTION]
  norm_num

lemma Y_SPACING_MULTIPLIER_pos : (0 : ℝ) < Y_SPACING_MULTIPLIER := by
  simp only [Y_SPACING_MULTIPLIER, BASE_Y_SPACING_MULTIPLIER, Y_SPACING_REDUCTION]
  norm_num

lemma xSpacingOf_pos (w h : ℝ) : 0 < xSpacingOf w h :=
  mul_pos (diameterOf_pos w h) X_SPACING_MULTIPLIER_pos

lemma ySpacingOf_pos (w h : ℝ) : 0 < ySpacingOf w h :=
  mul_pos (diameterOf_pos w h) Y_SPACING_MULTIPLIER_pos

/-- C8-adjacent: the claim as stated compares diameters through
`min(w, h)` alone.  The code computes `min(w*0.07, h*0.12)`, which is not
a function of `min(w, h)`; the counterexample below exhibits two
viewports with equal `min` but different diameters, in the wrong order. -/
theorem claimC8_counterexample :
    min (100 : ℝ) 10 ≤ min (10 : ℝ) 100 ∧
    ¬ diameterOf 100 10 ≤ diameterOf 10 100 := by
  constructor
  · norm_num
  · unfold diameterOf
    rw [show ((100 : ℝ) * 0.07) = 7 by norm_num, show ((10 : ℝ) * 0.12) = 1.2 by norm_num,
      show ((10 : ℝ) * 0.07) = 0.7 by norm_num, show ((100 : ℝ) * 0.12) = 12 by norm_num,
      min_eq_right (by norm_num : (1.2 : ℝ) ≤ 7), min_eq_left (by norm_num : (0.7 : ℝ) ≤ 12),
      max_eq_right (by norm_num : (0.2 : ℝ) ≤ 1.2), max_eq_right (by norm_num : (0.2 : ℝ) ≤ 0.7)]
    norm_num

/-- C8 amended — the diameter is a non-decreasing function of the viewport
in each coordinate: enlarging (or keeping) both width and height never
shrinks the computed diameter. -/
theorem claimC8_amended (w1 h1 w2 h2 : ℝ) (hw : w1 ≤ w2) (hh : h1 ≤ h2) :
    diameterOf w1 h1 ≤ diameterOf w2 h2 := by
  unfold diameterOf
  refine max_le_max (le_refl _) (min_le_min ?_ ?_) <;> nlinarith

/-- Closed witness for the amended C8 at concrete viewports. -/
theorem claimC8_amended_witness : diameterOf 800 600 ≤ diameterOf 1000 700 :=
  claimC8_amended 800 600 1000 700 (by norm_num) (by norm_num)

lemma truncR_sub_lt_one (q : ℝ) : |q - truncR q| < 1 := by
  unfold truncR
  split_ifs with h
  · rw [abs_sub_lt_iff]
    constructor
    · linarith [Int.sub_one_lt_floor q, Int.floor_le q]
    · linarith [Int.floor_le q, Int.sub_one_lt_floor q]
  · rw [abs_sub_lt_iff]
    constructor
    · linarith [Int.le_ceil q, Int.ceil_lt_add_one q]
    · linarith [Int.le_ceil q, Int.ceil_lt_add_one q]

lemma truncR_ne_zero {q : ℝ} (hq : 1 ≤ |q|) : truncR q ≠ 0 := by
  unfold truncR
  rcases le_abs.mp hq with h | h
  · rw [if_pos (by linarith)]
    have h1 : (1 : ℤ) ≤ ⌊q⌋ := Int.le_floor.mpr (by exact_mod_cast h)
    omega
  · have hneg : q ≤ -1 := by linarith
    rw [if_neg (by linarith)]
    have h1 : ⌈q⌉ ≤ -1 := Int.ceil_le.mpr (by exact_mod_cast hneg)
    omega

/-- C1 — during a frame advance with positive elapsed time and positive
spacing from the last rebuild (`layoutBaseOffset` is the constant 0 the
code maintains), an origin shift occurs if and only if
`|scrollOffset − worldColumnOffset×spacing| ≥ spacing` for the updated
scroll offset, and after any such shift the invariant
`|scrollOffset − worldColumnOffset×spacing| < spacing` holds again. -/
theorem claimC1_scroll_shift_iff_invariant (scrollOffset : ℝ) (worldColumnOffset : ℤ)
    (spacing deltaSeconds : ℝ) (hdt : 0 < deltaSeconds) (hsp : 0 < spacing) :
    ((frameScroll scrollOffset worldColumnOffset spacing 0 deltaSeconds).2.2 = true ↔
      spacing ≤ |(frameScroll scrollOffset worldColumnOffset spacing 0 deltaSeconds).1 -
        worldColumnOffset * spacing|) ∧
    ((frameScroll scrollOffset worldColumnOffset spacing 0 deltaSeconds).2.2 = true →
      |(frameScroll scrollOffset worldColumnOffset spacing 0 deltaSeconds).1 -
        (frameScroll scrollOffset worldColumnOffset spacing 0 deltaSeconds).2.1 * spacing| <
        spacing) := by
  have hfb : spacingFallback spacing = spacing := if_pos hsp
  simp only [frameScroll, hfb, sub_zero]
  set so := scrollOffset + deltaSeconds * HORIZONTAL_SCROLL_SPEED with hso
  set d := so - (worldColumnOffset : ℝ) * spacing with hd
  by_cases hbig : spacing ≤ |d|
  · have hq : 1 ≤ |d / spacing| := by
      rw [abs_div, abs_of_pos hsp, le_div_iff₀ hsp, one_mul]
      exact hbig
    have hne := truncR_ne_zero hq
    rw [if_pos hbig, if_pos hne]
    refine ⟨by simpa using hbig, fun _ => ?_⟩
    show |so - ((worldColumnOffset + truncR (d / spacing) : ℤ) : ℝ) * spacing| < spacing
    push_cast
    have hstep : so - ((worldColumnOffset : ℝ) + (truncR (d / spacing) : ℝ)) * spacing =
        spacing * (d / spacing - (truncR (d / spacing) : ℝ)) := by
      rw [hd]
      field_simp
      ring
    rw [hstep, abs_mul, abs_of_pos hsp]
    calc spacing * |d / spacing - (truncR (d / spacing) : ℝ)| < spacing * 1 :=
      (mul_lt_mul_left hsp).mpr (truncR_sub_lt_one _)
    _ = spacing := mul_one spacing
  · rw [if_neg hbig]
    refine ⟨?_, fun hc => by simp at hc⟩
    constructor
    · intro hc
      simp at hc
    · intro hc
      exact absurd (by simpa using hc) hbig

/-- Closed witness for C1: a concrete frame advance that crosses a full
spacing unit and shifts the origin. -/
theorem claimC1_witness :
    (0 : ℝ) < 2 ∧ (0 : ℝ) < 1 ∧
    ((frameScroll 0 0 1 0 2).2.2 = true →
      |(frameScroll 0 0 1 0 2).1 - (frameScroll 0 0 1 0 2).2.1 * 1| < 1) :=
  ⟨by norm_num, by norm_num,
    (claimC1_scroll_shift_iff_invariant 0 0 1 2 (by norm_num) (by norm_num)).2⟩

/-- C10 — every size update performed with positive container dimensions
resets the scroll state before rebuilding: afterwards `scrollOffset = 0`,
`worldColumnOffset = 0`, the scroll-group translation is `(0,0,0)` and the
frame timestamp is cleared, discarding the accumulated scroll phase. -/
theorem claimC10_resize_resets_scroll (st : EngineState) (clientWidth clientHeight : ℝ)
    (hw : 0 < clientWidth) (hh : 0 < clientHeight) :
    (updateSize st clientWidth clientHeight).scrollOffset = 0 ∧
    (updateSize st clientWidth clientHeight).worldColumnOffset = 0 ∧
    (updateSize st clientWidth clientHeight).scrollGroupPos = (0, 0, 0) ∧
    (updateSize st clientWidth clientHeight).lastTimestamp = none := by
  unfold updateSize
  rw [if_neg (by push_neg; exact ⟨ne_of_gt hw, ne_of_gt hh⟩)]
  exact ⟨rfl, rfl, rfl, rfl⟩

/-- Closed witness for C10 at a concrete prior state and container size. -/
theorem claimC10_witness :
    (updateSize ⟨5, 3, 0, some 7, (1, 2, 3), 10, 10, 2⟩ 800 600).scrollOffset = 0 ∧
    (updateSize ⟨5, 3, 0, some 7, (1, 2, 3), 10, 10, 2⟩ 800 600).worldColumnOffset = 0 ∧
    (updateSize ⟨5, 3, 0, some 7, (1, 2, 3), 10, 10, 2⟩ 800 600).scrollGroupPos = (0, 0, 0) ∧
    (updateSize ⟨5, 3, 0, some 7, (1, 2, 3), 10, 10, 2⟩ 800 600).lastTimestamp = none :=
  claimC10_resize_resets_scroll _ 800 600 (by norm_num) (by norm_num)

lemma amplitudeSafe_zero : amplitudeSafe 0 = 1e-6 :=
  max_eq_left (by norm_num)

lemma liveOpacityAt_amp_zero (xs wl bz : ℝ) (inst : BaseInstanceData) (scrollOffset t : ℝ) :
    liveOpacityAt ⟨xs, 0, 0, 0, wl, bz⟩ inst scrollOffset t =
      min 1 (inst.baseOpacity *
        lerp 1.0 1.2 (sharpPulse ⟨xs, 0, 0, 0, wl, bz⟩ inst scrollOffset t)) := by
  have hw : waveIntensity ⟨xs, 0, 0, 0, wl, bz⟩ inst scrollOffset t = 0.5 := by
    unfold waveIntensity totalWaveHeight primaryWave secondaryWave ripples
    rw [amplitudeSafe_zero]
    show clampR _ 0 1 = 0.5
    rw [show Real.sin (worldXOf ⟨xs, 0, 0, 0, wl, bz⟩ inst scrollOffset / wl +
        t * WAVE_SPEED) * (0 : ℝ) = 0 from mul_zero _]
    rw [show Real.sin (worldZOf inst / (wl * 0.7) +
        worldXOf ⟨xs, 0, 0, 0, wl, bz⟩ inst scrollOffset / (wl * 1.3) +
        t * WAVE_SPEED * SECONDARY_FREQUENCY) * (0 : ℝ) = 0 from mul_zero _]
    rw [show Real.sin (worldXOf ⟨xs, 0, 0, 0, wl, bz⟩ inst scrollOffset * RIPPLE_FREQUENCY_X +
        worldZOf inst * RIPPLE_FREQUENCY_Z + t * RIPPLE_SPEED) * (0 : ℝ) = 0 from mul_zero _]
    rw [show ((0 : ℝ) + 0 + 0 + 1e-6) / (1e-6 * 2) = 0.5 by norm_num]
    unfold clampR
    rw [min_eq_right (by norm_num), max_eq_right (by norm_num)]
  unfold liveOpacityAt finalMultiplier baseMultiplier highlightMultiplier
  rw [hw]
  rw [show lerp 0.9 1.1 0.5 = 1 by unfold lerp; norm_num, one_mul]

/-- C2 amended — when the wave animator runs with amplitude,
secondaryAmplitude and rippleAmplitude all 0, the wave-intensity
multiplier degenerates to the baseline 1, but the pulse multiplier
`lerp(1.0, 1.2, sharpPulse)` still applies: the live opacity equals
`min(1, baseOpacity × lerp(1.0, 1.2, sharpPulse))`, which coincides with
`baseOpacity` only where the pulse vanishes. -/
theorem claimC2_amended (xs wl bz : ℝ) (inst : BaseInstanceData) (scrollOffset t : ℝ) :
    liveOpacityAt ⟨xs, 0, 0, 0, wl, bz⟩ inst scrollOffset t =
      min 1 (inst.baseOpacity *
        lerp 1.0 1.2 (sharpPulse ⟨xs, 0, 0, 0, wl, bz⟩ inst scrollOffset t)) :=
  liveOpacityAt_amp_zero xs wl bz inst scrollOffset t

/-- C7 amended — advancing time by exactly two primary-wave periods
(`2 × 2π/speed`) leaves every instance's computed depth unchanged: the
primary phase advances by 4π, the secondary phase (frequency ratio 1.5)
by 6π and the ripple phase (speed ratio 2.5) by 10π, all full turns.
(A single primary period only negates the secondary and ripple terms;
see the counterexample.) -/
theorem claimC7_amended (L : LayoutConsts) (inst : BaseInstanceData) (scrollOffset t : ℝ) :
    depthAt L inst scrollOffset (t + 2 * (2 * Real.pi / WAVE_SPEED)) =
      depthAt L inst scrollOffset t := by
  unfold depthAt totalWaveHeight primaryWave secondaryWave ripples WAVE_SPEED
    SECONDARY_FREQUENCY RIPPLE_SPEED
  have h1 : worldXOf L inst scrollOffset / L.waveLength + (t + 2 * (2 * Real.pi / 1.2)) * 1.2 =
      worldXOf L inst scrollOffset / L.waveLength + t * 1.2 + (2 : ℤ) * (2 * Real.pi) := by
    push_cast
    ring
  have h2 : worldZOf inst / (L.waveLength * 0.7) +
      worldXOf L inst scrollOffset / (L.waveLength * 1.3) +
      (t + 2 * (2 * Real.pi / 1.2)) * 1.2 * 1.5 =
      worldZOf inst / (L.waveLength * 0.7) +
      worldXOf L inst scrollOffset / (L.waveLength * 1.3) + t * 1.2 * 1.5 +
      (3 : ℤ) * (2 * Real.pi) := by
    push_cast
    ring
  have h3 : worldXOf L inst scrollOffset * RIPPLE_FREQUENCY_X +
      worldZOf inst * RIPPLE_FREQUENCY_Z + (t + 2 * (2 * Real.pi / 1.2)) * 3.0 =
      worldXOf L inst scrollOffset * RIPPLE_FREQUENCY_X +
      worldZOf inst * RIPPLE_FREQUENCY_Z + t * 3.0 + (5 : ℤ) * (2 * Real.pi) := by
    push_cast
    ring
  rw [h1, h2, h3, Real.sin_add_int_mul_two_pi, Real.sin_add_int_mul_two_pi,
    Real.sin_add_int_mul_two_pi]

/-- C9 — no division performed by the layout or animation steps has a zero
divisor: the diameter (hence both spacings) is floored at a positive
minimum before being used as a divisor in the row/column range
computation, the frame-advance spacing falls back to 1 when non-positive,
the wave update returns `none` when `xSpacing` or `waveLength` is 0, and
the wave amplitude denominator is floored at `1e-6`. -/
theorem claimC9_no_zero_divisors :
    (∀ w h : ℝ, 0 < diameterOf w h ∧ 0 < xSpacingOf w h ∧ 0 < ySpacingOf w h) ∧
    (∀ s : ℝ, 0 < spacingFallback s) ∧
    (∀ a : ℝ, 0 < amplitudeSafe a) ∧
    (∀ (L : LayoutConsts) (hasData : Bool) (insts : List BaseInstanceData)
      (scrollOffset t : ℝ) (out : List (ℝ × ℝ)),
      applyWaveAnimation L hasData insts scrollOffset t = some out →
        L.xSpacing ≠ 0 ∧ L.waveLength ≠ 0) := by
  refine ⟨fun w h => ⟨diameterOf_pos w h, xSpacingOf_pos w h, ySpacingOf_pos w h⟩,
    fun s => ?_, fun a => lt_of_lt_of_le (by norm_num) (le_max_left _ _), ?_⟩
  · unfold spacingFallback
    split_ifs with h
    · exact h
    · norm_num
  · intro L hasData insts scrollOffset t out hsome
    unfold applyWaveAnimation at hsome
    split_ifs at hsome with h1 h2
    push_neg at h2
    exact ⟨h2.2.1, h2.2.2⟩

/-- Closed witness for C9: a concrete successful wave pass has nonzero
divisors. -/
theorem claimC9_witness :
    (⟨1, 1, 0.15, 0.05, 4, 0⟩ : LayoutConsts).xSpacing ≠ 0 ∧
    (⟨1, 1, 0.15, 0.05, 4, 0⟩ : LayoutConsts).waveLength ≠ 0 :=
  claimC9_no_zero_divisors.2.2.2 ⟨1, 1, 0.15, 0.05, 4, 0⟩ true
    [⟨0, 0, 0, 0, 0, 0, 0.5⟩] 0 0
    ([⟨0, 0, 0, 0, 0, 0, 0.5⟩].map fun inst =>
      (depthAt ⟨1, 1, 0.15, 0.05, 4, 0⟩ inst 0 0, liveOpacityAt ⟨1, 1, 0.15, 0.05, 4, 0⟩ inst 0 0))
    (by unfold applyWaveAnimation
        rw [if_neg (by simp), if_neg (by push_neg; refine ⟨by simp, by norm_num, by norm_num⟩)])

lemma mem_intRange {a b n : ℤ} : n ∈ intRange a b ↔ a ≤ n ∧ n ≤ b := by
  unfold intRange
  simp only [List.mem_map, List.mem_range]
  constructor
  · rintro ⟨i, hi, rfl⟩
    omega
  · rintro ⟨h1, h2⟩
    exact ⟨(n - a).toNat, by omega, by omega⟩

lemma intRange_length (a b : ℤ) : (intRange a b).length = (b + 1 - a).toNat := by
  unfold intRange
  rw [List.length_map, List.length_range]

lemma list_range_map_sum (k : ℕ) (f : ℕ → ℕ) :
    ((List.range k).map f).sum = ∑ i in Finset.range k, f i := by
  induction k with
  | zero => rfl
  | succ n ih =>
    rw [List.range_succ, List.map_append, List.sum_append, Finset.sum_range_succ, ih]
    simp

lemma sum_intRange_eq (a b : ℤ) (g : ℤ → ℕ) :
    ((intRange a b).map g).sum = ∑ r in Finset.Icc a b, g r := by
  have himg : Finset.Icc a b = (Finset.range (b + 1 - a).toNat).image (fun i : ℕ => a + (i : ℤ)) := by
    ext n
    simp only [Finset.mem_image, Finset.mem_range, Finset.mem_Icc]
    constructor
    · rintro ⟨h1, h2⟩
      exact ⟨(n - a).toNat, by omega, by omega⟩
    · rintro ⟨i, hi, rfl⟩
      omega
  rw [himg, Finset.sum_image (fun i _ j _ hij => by omega)]
  unfold intRange
  rw [List.map_map]
  exact list_range_map_sum _ _

lemma sum_map_filter_of_zero {l : List ℤ} {p : ℤ → Bool} {g : ℤ → ℕ}
    (h : ∀ r, p r = false → g r = 0) :
    ((l.filter p).map g).sum = (l.map g).sum := by
  induction l with
  | nil => rfl
  | cons a l ih =>
    by_cases hp : p a
    · rw [List.filter_cons_of_pos hp, List.map_cons, List.sum_cons, List.map_cons,
        List.sum_cons, ih]
    · have hpf : p a = false := by simpa using hp
      rw [List.filter_cons_of_neg (by simp [hpf]), List.map_cons, List.sum_cons, ih,
        h a hpf]
      omega

lemma length_layoutInstances (seed : ℕ) (w h : ℝ) (off : ℤ) :
    (layoutInstances seed w h off).length = requiredCountOf w h := by
  unfold layoutInstances requiredCountOf List.flatMap
  rw [List.length_flatten, List.map_map]
  congr 1
  refine List.map_congr_left fun r _ => ?_
  show ((intRange (cMinOf w h r) (cMaxOf w h r)).map (mkInst seed off w h r)).length = _
  rw [List.length_map, intRange_length]
  omega

lemma mem_codePairs {w h : ℝ} {p : ℤ × ℤ} :
    p ∈ codePairs w h ↔ (rowMinOf w h ≤ p.1 ∧ p.1 ≤ rowMaxOf w h) ∧
      cMinOf w h p.1 ≤ p.2 ∧ p.2 ≤ cMaxOf w h p.1 := by
  unfold codePairs
  rw [Finset.mem_biUnion]
  constructor
  · rintro ⟨r, hr, hp⟩
    rw [Finset.mem_image] at hp
    obtain ⟨c, hc, rfl⟩ := hp
    rw [Finset.mem_Icc] at hr hc
    exact ⟨hr, hc⟩
  · rintro ⟨⟨h1, h2⟩, h3, h4⟩
    exact ⟨p.1, Finset.mem_Icc.mpr ⟨h1, h2⟩,
      Finset.mem_image.mpr ⟨p.2, Finset.mem_Icc.mpr ⟨h3, h4⟩, by simp⟩⟩

lemma codePairs_card (w h : ℝ) : (codePairs w h).card = requiredCountOf w h := by
  unfold codePairs
  rw [Finset.card_biUnion]
  · have himg : ∀ r : ℤ,
        ((Finset.Icc (cMinOf w h r) (cMaxOf w h r)).image (fun c => (r, c))).card =
          (cMaxOf w h r - cMinOf w h r + 1).toNat := by
      intro r
      rw [Finset.card_image_of_injective _ (fun a b hab => ((Prod.mk.injEq _ _ _ _).mp hab).2),
        Int.card_Icc]
      congr 1
      ring
    rw [Finset.sum_congr rfl (fun r _ => himg r)]
    unfold requiredCountOf rowsOf
    rw [sum_map_filter_of_zero, sum_intRange_eq]
    intro r hr
    have : ¬ (cMinOf w h r ≤ cMaxOf w h r) := by simpa using hr
    omega
  · intro r _ r' _ hrr
    refine Finset.disjoint_left.mpr ?_
    rintro p hp hp'
    rw [Finset.mem_image] at hp hp'
    obtain ⟨c, _, rfl⟩ := hp
    obtain ⟨c', _, hc'⟩ := hp'
    exact hrr (((Prod.mk.injEq _ _ _ _).mp hc').1.symm)

lemma mem_rowsOf {w h : ℝ} {r : ℤ} :
    r ∈ rowsOf w h ↔ (rowMinOf w h ≤ r ∧ r ≤ rowMaxOf w h) ∧ cMinOf w h r ≤ cMaxOf w h r := by
  unfold rowsOf
  rw [List.mem_filter, mem_intRange]
  simp

lemma mkInst_mem_layout {seed : ℕ} {w h : ℝ} {off r c : ℤ}
    (h1 : rowMinOf w h ≤ r) (h2 : r ≤ rowMaxOf w h)
    (h3 : cMinOf w h r ≤ c) (h4 : c ≤ cMaxOf w h r) :
    mkInst seed off w h r c ∈ layoutInstances seed w h off := by
  unfold layoutInstances
  rw [List.mem_flatMap]
  exact ⟨r, mem_rowsOf.mpr ⟨⟨h1, h2⟩, le_trans h3 h4⟩,
    List.mem_map.mpr ⟨c, mem_intRange.mpr ⟨h3, h4⟩, rfl⟩⟩

lemma baseOpacity_of_mem {seed : ℕ} {w h : ℝ} {off : ℤ} {inst : BaseInstanceData}
    (hm : inst ∈ layoutInstances seed w h off) :
    inst.baseOpacity = cellOpacity seed inst.row inst.worldColumn := by
  unfold layoutInstances at hm
  rw [List.mem_flatMap] at hm
  obtain ⟨r, _, hm⟩ := hm
  rw [List.mem_map] at hm
  obtain ⟨c, _, rfl⟩ := hm
  rfl

/-- C4 — for a fixed session seed, the base opacity is a function of
(row, worldColumn) only: any two rebuilds, at any viewports and column
origins, that place a cell with the same row and the same world column
assign it the identical base opacity. -/
theorem claimC4_opacity_worldColumn_stable (seed : ℕ) (w1 h1 w2 h2 : ℝ) (o1 o2 : ℤ)
    (i1 i2 : BaseInstanceData)
    (hm1 : i1 ∈ layoutInstances seed w1 h1 o1) (hm2 : i2 ∈ layoutInstances seed w2 h2 o2)
    (hrow : i1.row = i2.row) (hwc : i1.worldColumn = i2.worldColumn) :
    i1.baseOpacity = i2.baseOpacity := by
  rw [baseOpacity_of_mem hm1, baseOpacity_of_mem hm2, hrow, hwc]

/-! ## Numeric bounds on the fixed rotation constants -/
lemma rad_eq_pi_div_nine : GRID_ROTATION_RAD = Real.pi / 9 := by
  unfold GRID_ROTATION_RAD
  ring

lemma rad_pos : 0 < GRID_ROTATION_RAD := by
  rw [rad_eq_pi_div_nine]
  positivity

lemma rad_gt : 0.3490657 < GRID_ROTATION_RAD := by
  rw [rad_eq_pi_div_nine]
  have h := Real.pi_gt_d6
  norm_num at h ⊢
  linarith

lemma rad_lt : GRID_ROTATION_RAD < 0.3490659 := by
  rw [rad_eq_pi_div_nine]
  have h := Real.pi_lt_d6
  norm_num at h ⊢
  linarith

lemma GRID_COS_pos : 0 < GRID_COS := by
  unfold GRID_COS
  refine Real.cos_pos_of_mem_Ioo ⟨?_, ?_⟩
  · have := rad_pos
    have hpi := Real.pi_gt_d6
    norm_num at hpi
    linarith
  · have := rad_lt
    have hpi := Real.pi_gt_d6
    norm_num at hpi
    linarith

lemma GRID_SIN_pos : 0 < GRID_SIN := by
  unfold GRID_SIN
  refine Real.sin_pos_of_pos_of_lt_pi rad_pos ?_
  have := rad_lt
  have hpi := Real.pi_gt_d6
  norm_num at hpi
  linarith

lemma GRID_SIN_lt : GRID_SIN < 0.35 := by
  unfold GRID_SIN
  have h1 := Real.sin_lt rad_pos
  have := rad_lt
  norm_num at this ⊢
  linarith

lemma GRID_COS_lt : GRID_COS < 0.94 := by
  unfold GRID_COS
  have habs : |GRID_ROTATION_RAD| ≤ 1 := by
    rw [abs_of_pos rad_pos]
    have := rad_lt
    norm_num at this ⊢
    linarith
  have hb := Real.cos_bound habs
  have hub : Real.cos GRID_ROTATION_RAD ≤
      1 - GRID_ROTATION_RAD ^ 2 / 2 + |GRID_ROTATION_RAD| ^ 4 * (5 / 96) := by
    have := (abs_sub_le_iff.mp hb).1
    linarith
  rw [abs_of_pos rad_pos] at hub
  have h1 := rad_gt
  have h2 := rad_lt
  norm_num at h1 h2
  have hx2l : (0.1218468 : ℝ) < GRID_ROTATION_RAD ^ 2 := by nlinarith
  have hx2u : GRID_ROTATION_RAD ^ 2 < (0.1218471 : ℝ) := by nlinarith
  have hx4 : GRID_ROTATION_RAD ^ 4 < (0.0148468 : ℝ) := by nlinarith
  norm_num
  linarith

/-! ## Exact evaluation of the layout ranges at the viewport (0.1, 0.1) -/
lemma diameter_pt1 : diameterOf 0.1 0.1 = 0.2 := by
  unfold diameterOf
  rw [show ((0.1 : ℝ) * 0.07) = 0.007 by norm_num, show ((0.1 : ℝ) * 0.12) = 0.012 by norm_num,
    min_eq_left (by norm_num : (0.007 : ℝ) ≤ 0.012),
    max_eq_left (by norm_num : (0.007 : ℝ) ≤ 0.2)]

lemma ys_pt1 : ySpacingOf 0.1 0.1 = 0.2322 := by
  unfold ySpacingOf
  rw [diameter_pt1]
  simp only [Y_SPACING_MULTIPLIER, BASE_Y_SPACING_MULTIPLIER, Y_SPACING_REDUCTION]
  norm_num

lemma xs_pt1 : xSpacingOf 0.1 0.1 = 2500227 / 10250000 := by
  unfold xSpacingOf
  rw [diameter_pt1]
  simp only [X_SPACING_MULTIPLIER, BASE_X_SPACING_MULTIPLIER, Y_SPACING_MULTIPLIER,
    BASE_Y_SPACING_MULTIPLIER, Y_SPACING_REDUCTION]
  norm_num

lemma margin_pt1 : marginOf 0.1 0.1 = 0.3 := by
  unfold marginOf radiusOf safetyPaddingOf
  rw [diameter_pt1]
  rw [show ((0.2 : ℝ) * 0.12) = 0.024 by norm_num,
    max_eq_right (by norm_num : (0.024 : ℝ) ≤ 0.2)]
  norm_num

lemma min4_corner (a b : ℝ) (ha : 0 ≤ a) (hb : 0 ≤ b) :
    min (min (-a - b) (-a + b)) (min (a - b) (a + b)) = -a - b := by
  rw [min_eq_left (show -a - b ≤ -a + b by linarith),
    min_eq_left (show a - b ≤ a + b by linarith),
    min_eq_left (show -a - b ≤ a - b by linarith)]

lemma max4_corner (a b : ℝ) (ha : 0 ≤ a) (hb : 0 ≤ b) :
    max (max (-a - b) (-a + b)) (max (a - b) (a + b)) = a + b := by
  rw [max_eq_right (show -a - b ≤ -a + b by linarith),
    max_eq_right (show a - b ≤ a + b by linarith),
    max_eq_right (show -a + b ≤ a + b by linarith)]

lemma min4_corner' (a b : ℝ) (ha : 0 ≤ a) (hb : 0 ≤ b) :
    min (min (b - a) (b + a)) (min (-b - a) (-b + a)) = -a - b := by
  rw [min_eq_left (show b - a ≤ b + a by linarith),
    min_eq_left (show -b - a ≤ -b + a by linarith),
    min_eq_right (show -b - a ≤ b - a by linarith)]
  ring

lemma max4_corner' (a b : ℝ) (ha : 0 ≤ a) (hb : 0 ≤ b) :
    max (max (b - a) (b + a)) (max (-b - a) (-b + a)) = a + b := by
  rw [max_eq_right (show b - a ≤ b + a by linarith),
    max_eq_right (show -b - a ≤ -b + a by linarith),
    max_eq_left (show -b + a ≤ b + a by linarith)]
  ring

lemma minX_pt1 : minLocalXOf 0.1 0.1 = -(0.05 * GRID_COS) - 0.05 * GRID_SIN - 0.3 := by
  have hC := GRID_COS_pos
  have hS := GRID_SIN_pos
  unfold minLocalXOf localXCorner BASE_OFFSET
  rw [margin_pt1]
  rw [show (-(0.1 * 0.5) : ℝ) * GRID_COS + -(0.1 * 0.5) * GRID_SIN - 0 =
      -(0.05 * GRID_COS) - 0.05 * GRID_SIN by ring,
    show (-(0.1 * 0.5) : ℝ) * GRID_COS + 0.1 * 0.5 * GRID_SIN - 0 =
      -(0.05 * GRID_COS) + 0.05 * GRID_SIN by ring,
    show ((0.1 : ℝ) * 0.5) * GRID_COS + -(0.1 * 0.5) * GRID_SIN - 0 =
      0.05 * GRID_COS - 0.05 * GRID_SIN by ring,
    show ((0.1 : ℝ) * 0.5) * GRID_COS + 0.1 * 0.5 * GRID_SIN - 0 =
      0.05 * GRID_COS + 0.05 * GRID_SIN by ring,
    min4_corner _ _ (by linarith) (by linarith)]

lemma maxX_pt1 : maxLocalXOf 0.1 0.1 = 0.05 * GRID_COS + 0.05 * GRID_SIN + 0.3 := by
  have hC := GRID_COS_pos
  have hS := GRID_SIN_pos
  unfold maxLocalXOf localXCorner BASE_OFFSET
  rw [margin_pt1]
  rw [show (-(0.1 * 0.5) : ℝ) * GRID_COS + -(0.1 * 0.5) * GRID_SIN - 0 =
      -(0.05 * GRID_COS) - 0.05 * GRID_SIN by ring,
    show (-(0.1 * 0.5) : ℝ) * GRID_COS + 0.1 * 0.5 * GRID_SIN - 0 =
      -(0.05 * GRID_COS) + 0.05 * GRID_SIN by ring,
    show ((0.1 : ℝ) * 0.5) * GRID_COS + -(0.1 * 0.5) * GRID_SIN - 0 =
      0.05 * GRID_COS - 0.05 * GRID_SIN by ring,
    show ((0.1 : ℝ) * 0.5) * GRID_COS + 0.1 * 0.5 * GRID_SIN - 0 =
      0.05 * GRID_COS + 0.05 * GRID_SIN by ring,
    max4_corner _ _ (by linarith) (by linarith)]

lemma minY_pt1 : minLocalYOf 0.1 0.1 = -(0.05 * GRID_COS) - 0.05 * GRID_SIN - 0.3 := by
  have hC := GRID_COS_pos
  have hS := GRID_SIN_pos
  unfold minLocalYOf localYCorner
  rw [margin_pt1]
  rw [show -(-(0.1 * 0.5) : ℝ) * GRID_SIN + -(0.1 * 0.5) * GRID_COS =
      0.05 * GRID_SIN - 0.05 * GRID_COS by ring,
    show -(-(0.1 * 0.5) : ℝ) * GRID_SIN + 0.1 * 0.5 * GRID_COS =
      0.05 * GRID_SIN + 0.05 * GRID_COS by ring,
    show -((0.1 : ℝ) * 0.5) * GRID_SIN + -(0.1 * 0.5) * GRID_COS =
      -(0.05 * GRID_SIN) - 0.05 * GRID_COS by ring,
    show -((0.1 : ℝ) * 0.5) * GRID_SIN + 0.1 * 0.5 * GRID_COS =
      -(0.05 * GRID_SIN) + 0.05 * GRID_COS by ring]
  rw [show (0.05 * GRID_SIN - 0.05 * GRID_COS : ℝ) = 0.05 * GRID_SIN - 0.05 * GRID_COS from rfl]
  rw [min4_corner' (0.05 * GRID_COS) (0.05 * GRID_SIN) (by linarith) (by linarith)]

lemma maxY_pt1 : maxLocalYOf 0.1 0.1 = 0.05 * GRID_COS + 0.05 * GRID_SIN + 0.3 := by
  have hC := GRID_COS_pos
  have hS := GRID_SIN_pos
  unfold maxLocalYOf localYCorner
  rw [margin_pt1]
  rw [show -(-(0.1 * 0.5) : ℝ) * GRID_SIN + -(0.1 * 0.5) * GRID_COS =
      0.05 * GRID_SIN - 0.05 * GRID_COS by ring,
    show -(-(0.1 * 0.5) : ℝ) * GRID_SIN + 0.1 * 0.5 * GRID_COS =
      0.05 * GRID_SIN + 0.05 * GRID_COS by ring,
    show -((0.1 : ℝ) * 0.5) * GRID_SIN + -(0.1 * 0.5) * GRID_COS =
      -(0.05 * GRID_SIN) - 0.05 * GRID_COS by ring,
    show -((0.1 : ℝ) * 0.5) * GRID_SIN + 0.1 * 0.5 * GRID_COS =
      -(0.05 * GRID_SIN) + 0.05 * GRID_COS by ring]
  rw [max4_corner' (0.05 * GRID_COS) (0.05 * GRID_SIN) (by linarith) (by linarith)]

lemma floor_neg_eq_neg_two {q : ℝ} (h1 : 1 < q) (h2 : q ≤ 2) : ⌊-q⌋ = -2 := by
  rw [Int.floor_eq_iff]
  push_cast
  constructor <;> linarith

lemma ceil_eq_two {q : ℝ} (h1 : 1 < q) (h2 : q ≤ 2) : ⌈q⌉ = 2 := by
  rw [Int.ceil_eq_iff]
  push_cast
  constructor <;> linarith

lemma floor_neg_sub_half {q : ℝ} (h1 : 1 < q) (h2 : q ≤ 1.5) : ⌊-q - 0.5⌋ = -2 := by
  rw [Int.floor_eq_iff]
  push_cast
  constructor <;> linarith

lemma ceil_sub_half_eq_one {q : ℝ} (h1 : 0.5 < q) (h2 : q ≤ 1.5) : ⌈q - 0.5⌉ = 1 := by
  rw [Int.ceil_eq_iff]
  push_cast
  constructor <;> linarith

lemma E_bounds : 0 < 0.05 * GRID_COS + 0.05 * GRID_SIN ∧
    0.05 * GRID_COS + 0.05 * GRID_SIN ≤ 0.0645 := by
  have h1 := GRID_COS_pos
  have h2 := GRID_SIN_pos
  have h3 := GRID_COS_lt
  have h4 := GRID_SIN_lt
  constructor <;> nlinarith

lemma rowQ_bounds :
    1 < (0.05 * GRID_COS + 0.05 * GRID_SIN + 0.3) / (0.2322 : ℝ) ∧
    (0.05 * GRID_COS + 0.05 * GRID_SIN + 0.3) / (0.2322 : ℝ) ≤ 2 := by
  obtain ⟨hE0, hE1⟩ := E_bounds
  constructor
  · rw [lt_div_iff₀ (by norm_num)]
    linarith
  · rw [div_le_iff₀ (by norm_num)]
    linarith

lemma colQ_bounds :
    1 < (0.05 * GRID_COS + 0.05 * GRID_SIN + 0.3) / ((2500227 : ℝ) / 10250000) ∧
    (0.05 * GRID_COS + 0.05 * GRID_SIN + 0.3) / ((2500227 : ℝ) / 10250000) ≤ 1.5 := by
  obtain ⟨hE0, hE1⟩ := E_bounds
  constructor
  · rw [lt_div_iff₀ (by norm_num)]
    linarith
  · rw [div_le_iff₀ (by norm_num)]
    linarith

lemma rowMin_pt1 : rowMinOf 0.1 0.1 = -3 := by
  unfold rowMinOf
  rw [minY_pt1, ys_pt1]
  rw [show (-(0.05 * GRID_COS) - 0.05 * GRID_SIN - 0.3) / (0.2322 : ℝ) =
    -((0.05 * GRID_COS + 0.05 * GRID_SIN + 0.3) / 0.2322) by ring]
  rw [floor_neg_eq_neg_two rowQ_bounds.1 rowQ_bounds.2]
  decide

lemma rowMax_pt1 : rowMaxOf 0.1 0.1 = 3 := by
  unfold rowMaxOf
  rw [maxY_pt1, ys_pt1]
  rw [ceil_eq_two rowQ_bounds.1 rowQ_bounds.2]
  decide

lemma shiftOf_even {r : ℤ} (h : r % 2 = 0) : shiftOf r = 0 := by
  unfold shiftOf
  rw [if_neg (by omega)]

lemma shiftOf_odd {r : ℤ} (h : r % 2 ≠ 0) : shiftOf r = 0.5 := by
  unfold shiftOf
  rw [if_pos h]

lemma cMin_pt1_even {r : ℤ} (h : r % 2 = 0) : cMinOf 0.1 0.1 r = -3 := by
  unfold cMinOf
  rw [minX_pt1, xs_pt1, shiftOf_even h, sub_zero]
  rw [show (-(0.05 * GRID_COS) - 0.05 * GRID_SIN - 0.3) / ((2500227 : ℝ) / 10250000) =
    -((0.05 * GRID_COS + 0.05 * GRID_SIN + 0.3) / (2500227 / 10250000)) by ring]
  rw [floor_neg_eq_neg_two colQ_bounds.1 (le_trans colQ_bounds.2 (by norm_num))]
  decide

lemma cMax_pt1_even {r : ℤ} (h : r % 2 = 0) : cMaxOf 0.1 0.1 r = 3 := by
  unfold cMaxOf
  rw [maxX_pt1, xs_pt1, shiftOf_even h, sub_zero]
  rw [ceil_eq_two colQ_bounds.1 (le_trans colQ_bounds.2 (by norm_num))]
  decide

lemma cMin_pt1_odd {r : ℤ} (h : r % 2 ≠ 0) : cMinOf 0.1 0.1 r = -3 := by
  unfold cMinOf
  rw [minX_pt1, xs_pt1, shiftOf_odd h]
  rw [show (-(0.05 * GRID_COS) - 0.05 * GRID_SIN - 0.3) / ((2500227 : ℝ) / 10250000) - 0.5 =
    -((0.05 * GRID_COS + 0.05 * GRID_SIN + 0.3) / (2500227 / 10250000)) - 0.5 by ring]
  rw [floor_neg_sub_half colQ_bounds.1 colQ_bounds.2]
  decide

lemma cMax_pt1_odd {r : ℤ} (h : r % 2 ≠ 0) : cMaxOf 0.1 0.1 r = 2 := by
  unfold cMaxOf
  rw [maxX_pt1, xs_pt1, shiftOf_odd h]
  rw [ceil_sub_half_eq_one (lt_trans (by norm_num) colQ_bounds.1) colQ_bounds.2]
  decide

lemma rowsOf_pt1 : rowsOf 0.1 0.1 = [-3, -2, -1, 0, 1, 2, 3] := by
  unfold rowsOf
  rw [rowMin_pt1, rowMax_pt1]
  have hrange : intRange (-3) 3 = [-3, -2, -1, 0, 1, 2, 3] := by
    unfold intRange
    rfl
  rw [hrange, List.filter_eq_self.mpr]
  intro a ha
  fin_cases ha
  · rw [decide_eq_true_eq, cMin_pt1_odd (by decide), cMax_pt1_odd (by decide)]
    decide
  · rw [decide_eq_true_eq, cMin_pt1_even (by decide), cMax_pt1_even (by decide)]
    decide
  · rw [decide_eq_true_eq, cMin_pt1_odd (by decide), cMax_pt1_odd (by decide)]
    decide
  · rw [decide_eq_true_eq, cMin_pt1_even (by decide), cMax_pt1_even (by decide)]
    decide
  · rw [decide_eq_true_eq, cMin_pt1_odd (by decide), cMax_pt1_odd (by decide)]
    decide
  · rw [decide_eq_true_eq, cMin_pt1_even (by decide), cMax_pt1_even (by decide)]
    decide
  · rw [decide_eq_true_eq, cMin_pt1_odd (by decide), cMax_pt1_odd (by decide)]
    decide

lemma requiredCount_pt1 : requiredCountOf 0.1 0.1 = 45 := by
  unfold requiredCountOf
  rw [rowsOf_pt1]
  simp only [List.map_cons, List.map_nil]
  rw [cMin_pt1_odd (show (-3 : ℤ) % 2 ≠ 0 by decide), cMax_pt1_odd (show (-3 : ℤ) % 2 ≠ 0 by decide),
    cMin_pt1_even (show (-2 : ℤ) % 2 = 0 by decide), cMax_pt1_even (show (-2 : ℤ) % 2 = 0 by decide),
    cMin_pt1_odd (show (-1 : ℤ) % 2 ≠ 0 by decide), cMax_pt1_odd (show (-1 : ℤ) % 2 ≠ 0 by decide),
    cMin_pt1_even (show (0 : ℤ) % 2 = 0 by decide), cMax_pt1_even (show (0 : ℤ) % 2 = 0 by decide),
    cMin_pt1_odd (show (1 : ℤ) % 2 ≠ 0 by decide), cMax_pt1_odd (show (1 : ℤ) % 2 ≠ 0 by decide),
    cMin_pt1_even (show (2 : ℤ) % 2 = 0 by decide), cMax_pt1_even (show (2 : ℤ) % 2 = 0 by decide),
    cMin_pt1_odd (show (3 : ℤ) % 2 ≠ 0 by decide), cMax_pt1_odd (show (3 : ℤ) % 2 ≠ 0 by decide)]
  decide

lemma marginOf_pos (w h : ℝ) : 0 < marginOf w h := by
  unfold marginOf radiusOf safetyPaddingOf
  have h1 := diameterOf_pos w h
  have h2 : (0.2 : ℝ) ≤ max (diameterOf w h * 0.12) 0.2 := le_max_right _ _
  nlinarith

set_option maxHeartbeats 1000000 in
lemma cellIntersects_mem_codePairs {w h : ℝ} {p : ℤ × ℤ}
    (hint : cellIntersects w h p) : p ∈ codePairs w h := by
  obtain ⟨x, y, hx, hy, hd⟩ := hint
  have hC := GRID_COS_pos
  have hS := GRID_SIN_pos
  have hxs := xSpacingOf_pos w h
  have hys := ySpacingOf_pos w h
  have hm := marginOf_pos w h
  obtain ⟨hx1, hx2⟩ := abs_le.mp hx
  obtain ⟨hy1, hy2⟩ := abs_le.mp hy
  set cx := ((p.2 : ℝ) + shiftOf p.1) * xSpacingOf w h with hcx
  set cy := (p.1 : ℝ) * ySpacingOf w h with hcy
  have hdx : |cx - localXCorner x y| ≤ marginOf w h := by
    have h1 : (cx - localXCorner x y) ^ 2 ≤ marginOf w h ^ 2 := by
      nlinarith [sq_nonneg (cy - localYCorner x y)]
    rw [abs_le]
    constructor <;> nlinarith [sq_nonneg (cx - localXCorner x y - marginOf w h),
      sq_nonneg (cx - localXCorner x y + marginOf w h)]
  have hdy : |cy - localYCorner x y| ≤ marginOf w h := by
    have h1 : (cy - localYCorner x y) ^ 2 ≤ marginOf w h ^ 2 := by
      nlinarith [sq_nonneg (cx - localXCorner x y)]
    rw [abs_le]
    constructor <;> nlinarith [sq_nonneg (cy - localYCorner x y - marginOf w h),
      sq_nonneg (cy - localYCorner x y + marginOf w h)]
  have hqx_ub : localXCorner x y ≤ localXCorner (w * 0.5) (h * 0.5) := by
    unfold localXCorner
    have p1 := mul_le_mul_of_nonneg_right hx2 hC.le
    have p2 := mul_le_mul_of_nonneg_right hy2 hS.le
    linarith
  have hqx_lb : localXCorner (-(w * 0.5)) (-(h * 0.5)) ≤ localXCorner x y := by
    unfold localXCorner
    have p1 := mul_le_mul_of_nonneg_right hx1 hC.le
    have p2 := mul_le_mul_of_nonneg_right hy1 hS.le
    linarith
  have hqy_ub : localYCorner x y ≤ localYCorner (-(w * 0.5)) (h * 0.5) := by
    unfold localYCorner
    have p1 := mul_le_mul_of_nonneg_right (show -x ≤ w * 0.5 by linarith) hS.le
    have p2 := mul_le_mul_of_nonneg_right hy2 hC.le
    linarith
  have hqy_lb : localYCorner (w * 0.5) (-(h * 0.5)) ≤ localYCorner x y := by
    unfold localYCorner
    have p1 := mul_le_mul_of_nonneg_right (show -(w * 0.5) ≤ -x by linarith) hS.le
    have p2 := mul_le_mul_of_nonneg_right hy1 hC.le
    linarith
  have hminX : minLocalXOf w h ≤ cx := by
    unfold minLocalXOf
    have hm4 : min (min (localXCorner (-(w * 0.5)) (-(h * 0.5))) (localXCorner (-(w * 0.5)) (h * 0.5)))
        (min (localXCorner (w * 0.5) (-(h * 0.5))) (localXCorner (w * 0.5) (h * 0.5))) ≤
        localXCorner (-(w * 0.5)) (-(h * 0.5)) :=
      le_trans (min_le_left _ _) (min_le_left _ _)
    have habs := (abs_le.mp hdx).1
    linarith
  have hmaxX : cx ≤ maxLocalXOf w h := by
    unfold maxLocalXOf
    have hm4 : localXCorner (w * 0.5) (h * 0.5) ≤
        max (max (localXCorner (-(w * 0.5)) (-(h * 0.5))) (localXCorner (-(w * 0.5)) (h * 0.5)))
        (max (localXCorner (w * 0.5) (-(h * 0.5))) (localXCorner (w * 0.5) (h * 0.5))) :=
      le_trans (le_max_right _ _) (le_max_right _ _)
    have habs := (abs_le.mp hdx).2
    linarith
  have hminY : minLocalYOf w h ≤ cy := by
    unfold minLocalYOf
    have hm4 : min (min (localYCorner (-(w * 0.5)) (-(h * 0.5))) (localYCorner (-(w * 0.5)) (h * 0.5)))
        (min (localYCorner (w * 0.5) (-(h * 0.5))) (localYCorner (w * 0.5) (h * 0.5))) ≤
        localYCorner (w * 0.5) (-(h * 0.5)) :=
      le_trans (min_le_right _ _) (min_le_left _ _)
    have habs := (abs_le.mp hdy).1
    linarith
  have hmaxY : cy ≤ maxLocalYOf w h := by
    unfold maxLocalYOf
    have hm4 : localYCorner (-(w * 0.5)) (h * 0.5) ≤
        max (max (localYCorner (-(w * 0.5)) (-(h * 0.5))) (localYCorner (-(w * 0.5)) (h * 0.5)))
        (max (localYCorner (w * 0.5) (-(h * 0.5))) (localYCorner (w * 0.5) (h * 0.5))) :=
      le_trans (le_max_right _ _) (le_max_left _ _)
    have habs := (abs_le.mp hdy).2
    linarith
  rw [mem_codePairs]
  refine ⟨⟨?_, ?_⟩, ?_, ?_⟩
  · unfold rowMinOf
    have hle : minLocalYOf w h / ySpacingOf w h ≤ (p.1 : ℝ) := by
      rw [div_le_iff₀ hys]
      linarith
    have hfl := Int.floor_mono hle
    rw [Int.floor_intCast] at hfl
    omega
  · unfold rowMaxOf
    have hle : (p.1 : ℝ) ≤ maxLocalYOf w h / ySpacingOf w h := by
      rw [le_div_iff₀ hys]
      linarith
    have hcl := Int.ceil_mono hle
    rw [Int.ceil_intCast] at hcl
    omega
  · unfold cMinOf
    have hle : minLocalXOf w h / xSpacingOf w h - shiftOf p.1 ≤ (p.2 : ℝ) := by
      rw [sub_le_iff_le_add, div_le_iff₀ hxs]
      linarith [hminX]
    have hfl := Int.floor_mono hle
    rw [Int.floor_intCast] at hfl
    omega
  · unfold cMaxOf
    have hle : (p.2 : ℝ) ≤ maxLocalXOf w h / xSpacingOf w h - shiftOf p.1 := by
      rw [le_sub_iff_add_le, le_div_iff₀ hxs]
      linarith [hmaxX]
    have hcl := Int.ceil_mono hle
    rw [Int.ceil_intCast] at hcl
    omega

lemma not_intersects_row3 : ¬ cellIntersects 0.1 0.1 (3, 0) := by
  unfold cellIntersects
  push_neg
  intro x y hx hy
  simp only [show ((3, 0) : ℤ × ℤ).1 = 3 from rfl, show ((3, 0) : ℤ × ℤ).2 = 0 from rfl]
  rw [xs_pt1, ys_pt1, margin_pt1]
  push_cast
  obtain ⟨hx1, hx2⟩ := abs_le.mp hx
  obtain ⟨hy1, hy2⟩ := abs_le.mp hy
  norm_num at hx1 hx2 hy1 hy2
  have hS := GRID_SIN_pos
  have hC := GRID_COS_pos
  have hSu := GRID_SIN_lt
  have hCu := GRID_COS_lt
  have hyb : localYCorner x y ≤ 0.0645 := by
    unfold localYCorner
    have p1 := mul_le_mul_of_nonneg_right (show -x ≤ 0.05 by linarith) hS.le
    have p2 := mul_le_mul_of_nonneg_right (show y ≤ 0.05 by linarith) hC.le
    nlinarith
  have hterm : (0.39 : ℝ) < (3 * 0.2322 - localYCorner x y) ^ 2 := by
    nlinarith [hyb]
  nlinarith [sq_nonneg ((0 + shiftOf 3) * (2500227 / 10250000 : ℝ) - localXCorner x y), hterm]

/-- C5 amended — the post-rebuild instance count equals the number of
(row, col) pairs the enumeration covers: rows in
`[⌊minLocalY/ySpacing⌋−1, ⌈maxLocalY/ySpacing⌉+1]` and, per row, columns
in the shift-adjusted range derived from the margin-expanded axis-aligned
bounding box of the rotated viewport corners, i.e. a one-cell ring around
the expanded bounding box.  This enumerated set is a strict superset of
the exactly-intersecting cells: every cell whose margin-expanded disc
meets the viewport rectangle in the rotated frame is among the enumerated
pairs (but not conversely). -/
theorem claimC5_amended (seed : ℕ) (w h : ℝ) (off : ℤ) (hw : 0 < w) (hh : 0 < h) :
    (layoutInstances seed w h off).length = (codePairs w h).card ∧
    ∀ p : ℤ × ℤ, cellIntersects w h p → p ∈ codePairs w h := by
  refine ⟨?_, fun p hp => cellIntersects_mem_codePairs hp⟩
  rw [length_layoutInstances, codePairs_card]

/-- Closed witness for the amended C5 at a concrete viewport. -/
theorem claimC5_amended_witness :
    (0 : ℝ) < 1 ∧
    ((layoutInstances 1 1 1 0).length = (codePairs 1 1).card ∧
      ∀ p : ℤ × ℤ, cellIntersects 1 1 p → p ∈ codePairs 1 1) :=
  ⟨by norm_num, claimC5_amended 1 1 1 0 (by norm_num) (by norm_num)⟩

/-- C5 counterexample — at the positive viewport (0.1, 0.1) the rebuild
produces 45 instances, while at most 44 (row, col) pairs have a cell
whose margin-expanded disc meets the viewport rectangle in the rotated
frame: the enumeration pads the expanded bounding box with an extra
one-cell ring, so the claimed equality fails.  Cell (3, 0) is counted but
does not intersect. -/
theorem claimC5_counterexample :
    ¬ ((layoutInstances 1 0.1 0.1 0).length =
        Set.ncard {p : ℤ × ℤ | cellIntersects 0.1 0.1 p}) := by
  have hlen : (layoutInstances 1 0.1 0.1 0).length = 45 := by
    rw [length_layoutInstances, requiredCount_pt1]
  have hcard : (codePairs 0.1 0.1).card = 45 := by
    rw [codePairs_card, requiredCount_pt1]
  have hmem : ((3 : ℤ), (0 : ℤ)) ∈ codePairs 0.1 0.1 := by
    rw [mem_codePairs]
    refine ⟨⟨?_, ?_⟩, ?_, ?_⟩
    · rw [rowMin_pt1]
      decide
    · rw [rowMax_pt1]
    · rw [cMin_pt1_odd (by decide)]
      decide
    · rw [cMax_pt1_odd (by decide)]
      decide
  have hsub : {p : ℤ × ℤ | cellIntersects 0.1 0.1 p} ⊆
      ↑((codePairs 0.1 0.1).erase (3, 0)) := by
    intro p hp
    rw [Finset.coe_erase]
    refine ⟨cellIntersects_mem_codePairs hp, ?_⟩
    intro hp0
    rw [Set.mem_singleton_iff] at hp0
    exact not_intersects_row3 (hp0 ▸ hp)
  have hncard : Set.ncard {p : ℤ × ℤ | cellIntersects 0.1 0.1 p} ≤ 44 := by
    have h1 := Set.ncard_le_ncard hsub (Finset.finite_toSet _)
    rw [Set.ncard_coe_Finset, Finset.card_erase_of_mem hmem, hcard] at h1
    exact h1
  rw [hlen]
  omega

/-- Closed witness for C4: the same (row 0, world column 1) cell placed by
two rebuilds with different column origins receives the same base
opacity. -/
theorem claimC4_witness :
    (mkInst 1 0 0.1 0.1 0 1).baseOpacity = (mkInst 1 1 0.1 0.1 0 0).baseOpacity :=
  claimC4_opacity_worldColumn_stable 1 0.1 0.1 0.1 0.1 0 1 _ _
    (mkInst_mem_layout (by rw [rowMin_pt1]; decide) (by rw [rowMax_pt1]; decide)
      (by rw [cMin_pt1_even (by decide)]; decide) (by rw [cMax_pt1_even (by decide)]; decide))
    (mkInst_mem_layout (by rw [rowMin_pt1]; decide) (by rw [rowMax_pt1]; decide)
      (by rw [cMin_pt1_even (by decide)]; decide) (by rw [cMax_pt1_even (by decide)]; decide))
    rfl (by decide)

lemma opacity_dim_bounds (s0 s1 s2 : ℝ) (h : 0.055 ≤ s0) :
    0.08 ≤ opacityFromSamples s0 s1 s2 ∧ opacityFromSamples s0 s1 s2 ≤ 0.5 := by
  unfold opacityFromSamples MIN_OPACITY HALF_OPACITY
  rw [if_neg (by norm_num; linarith), if_neg (by norm_num; linarith)]
  constructor
  · exact le_min (by norm_num) (le_max_left _ _)
  · exact le_trans (min_le_left _ _) (by norm_num)

lemma roll0_seed_fallback : ((randomForCell 2654435761 0 0 0 : ℚ) : ℝ) = 1361921809 / 4294967296 := by
  have hh : cellHash 2654435761 0 0 0 = 1361921809 := by rfl
  unfold randomForCell
  rw [hh]
  push_cast
  norm_num

lemma worldX_zero_cell (L : LayoutConsts) (seed : ℕ) (w h : ℝ) :
    worldXOf L (mkInst seed 0 w h 0 0) 0 = 0 := by
  unfold worldXOf mkInst shiftOf
  rw [if_neg (by decide)]
  push_cast
  ring

lemma worldZ_zero_cell (seed : ℕ) (off : ℤ) (w h : ℝ) (c : ℤ) :
    worldZOf (mkInst seed off w h 0 c) = 0 := by
  unfold worldZOf mkInst
  push_cast
  ring

lemma floor_one_quarter : ⌊(1 / 4 : ℝ)⌋ = 0 := by
  rw [Int.floor_eq_iff]
  push_cast
  norm_num

lemma pulsePhase_cell (L : LayoutConsts) (seed : ℕ) (w h : ℝ)
    (hwx : worldXOf L (mkInst seed 0 w h 0 0) 0 = 0) :
    pulsePhase L (mkInst seed 0 w h 0 0) 0 (Real.pi / 3) = Real.pi / 2 := by
  unfold pulsePhase
  rw [hwx, worldZ_zero_cell]
  rw [show Real.pi / 3 * PULSE_SPEED + 0 * PULSE_SPATIAL_X + 0 * PULSE_SPATIAL_Z =
    Real.pi / 2 by unfold PULSE_SPEED PULSE_SPATIAL_X PULSE_SPATIAL_Z; ring]
  unfold jsMod truncR
  have hq : Real.pi / 2 / (Real.pi * 2) = 1 / 4 := by
    field_simp
    ring
  rw [hq, if_pos (by norm_num), floor_one_quarter]
  push_cast
  ring

lemma sharpPulse_cell (L : LayoutConsts) (seed : ℕ) (w h : ℝ)
    (hwx : worldXOf L (mkInst seed 0 w h 0 0) 0 = 0) :
    sharpPulse L (mkInst seed 0 w h 0 0) 0 (Real.pi / 3) = 1 := by
  unfold sharpPulse pulseIntensity
  rw [pulsePhase_cell L seed w h hwx, Real.sin_pi_div_two]
  rw [show ((1 : ℝ) + 1) * 0.5 = 1 by norm_num]
  exact Real.one_rpow _

/-- C2 counterexample — an actual layout instance (seed equal to the
code's fallback seed, cell (0,0), a dim-tier cell) run through the wave
animator with all three amplitudes set to 0 at time t = π/3 receives a
live opacity of 1.2 × baseOpacity, not baseOpacity: the pulse multiplier
does not vanish with the amplitudes. -/
theorem claimC2_counterexample :
    mkInst 2654435761 0 0.1 0.1 0 0 ∈ layoutInstances 2654435761 0.1 0.1 0 ∧
    liveOpacityAt ⟨xSpacingOf 0.1 0.1, 0, 0, 0, 4, GRID_PLANE_Z⟩
        (mkInst 2654435761 0 0.1 0.1 0 0) 0 (Real.pi / 3) ≠
      (mkInst 2654435761 0 0.1 0.1 0 0).baseOpacity := by
  constructor
  · exact mkInst_mem_layout (by rw [rowMin_pt1]; decide) (by rw [rowMax_pt1]; decide)
      (by rw [cMin_pt1_even (by decide)]; decide) (by rw [cMax_pt1_even (by decide)]; decide)
  · have hb : (mkInst 2654435761 0 0.1 0.1 0 0).baseOpacity =
        opacityFromSamples ((randomForCell 2654435761 0 0 0 : ℚ) : ℝ)
          ((randomForCell 2654435761 0 0 1 : ℚ) : ℝ)
          ((randomForCell 2654435761 0 0 2 : ℚ) : ℝ) := by
      show cellOpacity 2654435761 0 (0 + 0) = _
      rw [show ((0 : ℤ) + 0) = 0 from rfl]
      unfold cellOpacity
      rfl
    have hroll : (0.055 : ℝ) ≤ ((randomForCell 2654435761 0 0 0 : ℚ) : ℝ) := by
      rw [roll0_seed_fallback]
      norm_num
    obtain ⟨hb1, hb2⟩ := opacity_dim_bounds _ ((randomForCell 2654435761 0 0 1 : ℚ) : ℝ)
      ((randomForCell 2654435761 0 0 2 : ℚ) : ℝ) hroll
    rw [liveOpacityAt_amp_zero, sharpPulse_cell _ _ _ _ (worldX_zero_cell _ _ _ _)]
    rw [show lerp 1.0 1.2 1 = 1.2 by unfold lerp; norm_num]
    rw [hb]
    rw [min_eq_right (by linarith)]
    intro heq
    linarith

/-- C7 counterexample — for the actual layout state produced at viewport
(0.1, 0.1) (amplitudes 1 / 0.15 / 0.05, wave length 4), the instance at
cell (0,0) with zero scroll changes depth when the time advances by one
primary-wave period 2π/1.2: the secondary phase advances by 3π and the
ripple phase by 5π, so both terms flip sign, and at t = 5π/18 the depth
drops by exactly 0.35. -/
theorem claimC7_counterexample :
    mkInst 1 0 0.1 0.1 0 0 ∈ layoutInstances 1 0.1 0.1 0 ∧
    depthAt (layoutConstsOf 0.1 0.1) (mkInst 1 0 0.1 0.1 0 0) 0
        (5 * Real.pi / 18 + 2 * Real.pi / WAVE_SPEED) ≠
      depthAt (layoutConstsOf 0.1 0.1) (mkInst 1 0 0.1 0.1 0 0) 0 (5 * Real.pi / 18) := by
  constructor
  · exact mkInst_mem_layout (by rw [rowMin_pt1]; decide) (by rw [rowMax_pt1]; decide)
      (by rw [cMin_pt1_even (by decide)]; decide) (by rw [cMax_pt1_even (by decide)]; decide)
  · have hwx := worldX_zero_cell (layoutConstsOf 0.1 0.1) 1 0.1 0.1
    have hwz := worldZ_zero_cell 1 0 0.1 0.1 0
    have h1 : depthAt (layoutConstsOf 0.1 0.1) (mkInst 1 0 0.1 0.1 0 0) 0 (5 * Real.pi / 18) =
        Real.sin (Real.pi / 3) + 0.175 := by
      unfold depthAt totalWaveHeight primaryWave secondaryWave ripples
      rw [hwx, hwz]
      simp only [layoutConstsOf]
      rw [show (0 : ℝ) / 4.0 + 5 * Real.pi / 18 * WAVE_SPEED = Real.pi / 3 by
          unfold WAVE_SPEED; ring,
        show (0 : ℝ) / (4.0 * 0.7) + 0 / (4.0 * 1.3) +
            5 * Real.pi / 18 * WAVE_SPEED * SECONDARY_FREQUENCY = Real.pi / 2 by
          unfold WAVE_SPEED SECONDARY_FREQUENCY; ring,
        show (0 : ℝ) * RIPPLE_FREQUENCY_X + 0 * RIPPLE_FREQUENCY_Z +
            5 * Real.pi / 18 * RIPPLE_SPEED = Real.pi - Real.pi / 6 by
          unfold RIPPLE_FREQUENCY_X RIPPLE_FREQUENCY_Z RIPPLE_SPEED; ring,
        Real.sin_pi_div_two, Real.sin_pi_sub, Real.sin_pi_div_six]
      unfold GRID_PLANE_Z
      ring
    have h2 : depthAt (layoutConstsOf 0.1 0.1) (mkInst 1 0 0.1 0.1 0 0) 0
        (5 * Real.pi / 18 + 2 * Real.pi / WAVE_SPEED) =
        Real.sin (Real.pi / 3) - 0.175 := by
      unfold depthAt totalWaveHeight primaryWave secondaryWave ripples
      rw [hwx, hwz]
      simp only [layoutConstsOf]
      rw [show (0 : ℝ) / 4.0 + (5 * Real.pi / 18 + 2 * Real.pi / WAVE_SPEED) * WAVE_SPEED =
            Real.pi / 3 + 2 * Real.pi by unfold WAVE_SPEED; ring,
        show (0 : ℝ) / (4.0 * 0.7) + 0 / (4.0 * 1.3) +
            (5 * Real.pi / 18 + 2 * Real.pi / WAVE_SPEED) * WAVE_SPEED * SECONDARY_FREQUENCY =
            Real.pi / 2 + Real.pi + 2 * Real.pi by
          unfold WAVE_SPEED SECONDARY_FREQUENCY; ring,
        show (0 : ℝ) * RIPPLE_FREQUENCY_X + 0 * RIPPLE_FREQUENCY_Z +
            (5 * Real.pi / 18 + 2 * Real.pi / WAVE_SPEED) * RIPPLE_SPEED =
            Real.pi - Real.pi / 6 + Real.pi + (2 : ℤ) * (2 * Real.pi) by
          unfold WAVE_SPEED RIPPLE_FREQUENCY_X RIPPLE_FREQUENCY_Z RIPPLE_SPEED
          push_cast
          ring,
        Real.sin_add_two_pi, Real.sin_add_two_pi, Real.sin_add_int_mul_two_pi,
        Real.sin_add_pi, Real.sin_add_pi, Real.sin_pi_div_two, Real.sin_pi_sub,
        Real.sin_pi_div_six]
      unfold GRID_PLANE_Z
      ring
    rw [h1, h2]
    intro heq
    linarith

end CircleWallpaper
